import Mathlib

/-!
Verification of the clips-rs safety and bridging layer: a shallow embedding of
the value marshaller, the callback bridge registration paths, the environment
actor loop, the globals snapshot/restore, and the persistence error mapping,
with theorems settling the specified properties against this embedding.
-/

namespace ClipsRs

/-- Carrier for a Rust `f64` payload, modelled by its 64-bit IEEE 754 pattern.
The wrapped code never computes with floats — it only moves them across the
FFI boundary and (de)serializes them — but serialization distinguishes finite
from non-finite payloads, so the bit pattern (from which finiteness is
decidable) is the faithful representation. -/
structure Float64 where
  bits : Nat
deriving DecidableEq, Repr

/-- Finiteness of an `f64`, from its bit pattern: a double is non-finite (NaN
or an infinity) exactly when its 11 exponent bits (bits 52-62) are all ones.
This models `f64::is_finite`, the criterion serde_json uses to decide whether
a float is written as a number or as null. -/
def Float64.finite (f : Float64) : Bool :=
  f.bits / 2 ^ 52 % 2 ^ 11 != 2047

/-- Host-side tagged value, from `CLIPSValue` in src/clips/src/value.rs
(variants Symbol, Int, String, Float, Bool, Multifield). -/
inductive CLIPSValue where
  | Symbol (s : String)
  | Int (i : Int)
  | String (s : String)
  | Float (f : Float64)
  | Bool (b : Bool)
  | Multifield (vs : List CLIPSValue)
deriving Repr

/-- Engine-side dynamically tagged value, from the `clips_sys::CLIPSValue`
union together with the type tags dispatched on by `extract_clipsvalue`
(FLOAT_TYPE, INTEGER_TYPE, SYMBOL_TYPE, STRING_TYPE, MULTIFIELD_TYPE). -/
inductive EngineValue where
  | float (f : Float64)
  | integer (i : Int)
  | symbol (s : String)
  | strVal (s : String)
  | multifield (vs : List EngineValue)
deriving Repr

/-- Modelled engine primitive: `CreateInteger` interns an integer atom. -/
def CreateInteger (i : Int) : EngineValue := .integer i

/-- Modelled engine primitive: `CreateFloat` interns a float atom. -/
def CreateFloat (f : Float64) : EngineValue := .float f

/-- Modelled engine primitive: `CreateString` interns a string lexeme. -/
def CreateString (s : String) : EngineValue := .strVal s

/-- Modelled engine primitive: `CreateSymbol` interns a symbol lexeme. -/
def CreateSymbol (s : String) : EngineValue := .symbol s

/-- Modelled engine primitive: `CreateBoolean` interns one of the two
canonical boolean symbol lexemes, TRUE or FALSE (the same two lexemes the
repository's own boolean decoders match on, in value.rs and in
clips-sys/src/lib.rs). -/
def CreateBoolean (b : Bool) : EngineValue := .symbol (if b then "TRUE" else "FALSE")

mutual

/-- Host-to-engine conversion, from `impl CLIPSFrom<CLIPSValue> for
clips_sys::CLIPSValue` (value.rs lines 94-105): each variant dispatches to the
scalar conversion of its payload; the Multifield arm is the Vec conversion of
value.rs lines 77-92 (builder created, elements converted and appended,
`MBCreate` finalizing the accumulated elements into a multifield). -/
def clipsfrom_clipsvalue : CLIPSValue → EngineValue
  | .Int v => CreateInteger v
  | .String v => CreateString v
  | .Symbol v => CreateSymbol v
  | .Float v => CreateFloat v
  | .Bool v => CreateBoolean v
  | .Multifield v => .multifield (clipsfrom_elems v)
termination_by structural v => v

/-- Element loop of the Vec conversion (the `for val in value` loop appending
each converted element to the builder). -/
def clipsfrom_elems : List CLIPSValue → List EngineValue
  | [] => []
  | v :: vs => clipsfrom_clipsvalue v :: clipsfrom_elems vs
termination_by structural vs => vs

end

/-- Host-to-engine conversion of a collection as a standalone function, from
`impl CLIPSFrom<Vec<CLIPSValue>>` (value.rs lines 77-92); definitionally equal
to the Multifield arm of `clipsfrom_clipsvalue`. -/
def clipsfrom_vec (vs : List CLIPSValue) : EngineValue :=
  .multifield (clipsfrom_elems vs)

mutual

/-- Engine-to-host conversion, from `extract_clipsvalue` (value.rs lines
328-369), translated arm by arm: note that the SYMBOL_TYPE arm maps the lexeme
"TRUE" to `Bool(true)` and the lexeme "FALSE" also to `Bool(true)` (lines
344-345 of the source). -/
def extract_clipsvalue : EngineValue → CLIPSValue
  | .float f => .Float f
  | .integer i => .Int i
  | .symbol s =>
      if s = "TRUE" then .Bool true
      else if s = "FALSE" then .Bool true
      else .Symbol s
  | .strVal s => .String s
  | .multifield vs => .Multifield (extract_elems vs)
termination_by structural v => v

/-- Element loop of the MULTIFIELD_TYPE arm of `extract_clipsvalue`. -/
def extract_elems : List EngineValue → List CLIPSValue
  | [] => []
  | v :: vs => extract_clipsvalue v :: extract_elems vs
termination_by structural vs => vs

end

/-- C1: converting `Bool(false)` host-to-engine (which interns the FALSE
lexeme) and back through `extract_clipsvalue` yields `Bool(true)`, not
`Bool(false)`: the scalar round-trip invariant fails at this input. -/
theorem c1_bool_false_roundtrips_to_true :
    extract_clipsvalue (clipsfrom_clipsvalue (CLIPSValue.Bool false)) = CLIPSValue.Bool true ∧
    extract_clipsvalue (clipsfrom_clipsvalue (CLIPSValue.Bool false)) ≠ CLIPSValue.Bool false := by
  refine ⟨rfl, fun h => ?_⟩
  rw [show extract_clipsvalue (clipsfrom_clipsvalue (CLIPSValue.Bool false)) =
      CLIPSValue.Bool true from rfl] at h
  simp at h

/-- JSON value as serde_json produces and consumes it: integer and float
number tokens, strings, booleans, null, arrays, and objects (ordered
key-value sequences, as a serde map access presents them). -/
inductive Json where
  | int (i : Int)
  | float (f : Float64)
  | str (s : String)
  | bool (b : Bool)
  | null
  | arr (elems : List Json)
  | obj (entries : List (String × Json))
deriving Repr

mutual

/-- Serialization of `CLIPSValue`, from the derived `Serialize` impl
(value.rs line 108) composed with serde_json's writer: serde's externally
tagged enum representation, a single-entry map from the variant name to the
serialized payload. A finite float payload becomes a number token (serde_json
prints finite f64 with a shortest representation that parses back to the same
bits); a non-finite f64 (NaN or an infinity) is written by serde_json as
null. -/
def serialize_clipsvalue : CLIPSValue → Json
  | .Symbol s => .obj [("Symbol", .str s)]
  | .Int i => .obj [("Int", .int i)]
  | .String s => .obj [("String", .str s)]
  | .Float f => .obj [("Float", if f.finite then .float f else .null)]
  | .Bool b => .obj [("Bool", .bool b)]
  | .Multifield vs => .obj [("Multifield", .arr (serialize_elems vs))]
termination_by structural v => v

/-- Serialization of a `Vec<CLIPSValue>` payload (serde serializes each
element in order). -/
def serialize_elems : List CLIPSValue → List Json
  | [] => []
  | v :: vs => serialize_clipsvalue v :: serialize_elems vs
termination_by structural vs => vs

end

mutual

/-- Deserialization of `CLIPSValue`, from `impl Deserialize for CLIPSValue`
(value.rs lines 149-156) composed with `CLIPSValueVisitor` (lines 159-326):
`deserialize_any` dispatches on the JSON token to the visitor methods.
Number tokens reach `visit_i64`/`visit_f64`, strings reach `visit_string`
(with `is_symbol` false from JSON), booleans reach `visit_bool`, sequences
reach `visit_seq`, and maps reach `visit_map`; a null token reaches no visitor
method the type implements (there is no `visit_unit`), an invalid-type error.
`None` models a deserialization error. -/
def deserialize_clipsvalue : Json → Option CLIPSValue
  | .int i => some (.Int i)
  | .float f => some (.Float f)
  | .str s => some (.String s)
  | .bool b => some (.Bool b)
  | .null => none
  | .arr elems =>
      match deserialize_elems elems with
      | some vs => some (.Multifield vs)
      | none => none
  | .obj entries => visit_map entries none
termination_by structural j => j

/-- Deserialization of each element of a JSON sequence as a `CLIPSValue`
(the `seq.next_element()` loop of `visit_seq`, value.rs lines 263-274). -/
def deserialize_elems : List Json → Option (List CLIPSValue)
  | [] => some []
  | j :: js =>
      match deserialize_clipsvalue j, deserialize_elems js with
      | some v, some vs => some (v :: vs)
      | _, _ => none
termination_by structural js => js

/-- Key loop of `CLIPSValueVisitor::visit_map` (value.rs lines 277-325):
iterates the map entries; a second entry once a result is set is an
invalid-length error; each known variant key deserializes its payload at the
payload's type; an unknown key is an unknown-variant error. An empty map
leaves `res` at `None` (the source calls `res.unwrap()` there, a panic,
modelled as a failure). -/
def visit_map : List (String × Json) → Option CLIPSValue → Option CLIPSValue
  | [], res => res
  | (key, payload) :: rest, res =>
      if res.isSome then none
      else
        match key with
        | "Symbol" =>
            match payload with
            | .str s => visit_map rest (some (.Symbol s))
            | _ => none
        | "Int" =>
            match payload with
            | .int i => visit_map rest (some (.Int i))
            | _ => none
        | "String" =>
            match payload with
            | .str s => visit_map rest (some (.String s))
            | _ => none
        | "Float" =>
            match payload with
            | .float f => visit_map rest (some (.Float f))
            | _ => none
        | "Bool" =>
            match payload with
            | .bool b => visit_map rest (some (.Bool b))
            | _ => none
        | "Multifield" =>
            match payload with
            | .arr elems =>
                match deserialize_elems elems with
                | some vs => visit_map rest (some (.Multifield vs))
                | none => none
            | _ => none
        | _ => none
termination_by structural entries => entries

end

mutual

/-- Whether every float payload of a value, at any nesting depth, is a finite
f64 — the class of values serde_json serializes losslessly (a non-finite
float payload is written as null). -/
def floats_finite : CLIPSValue → Bool
  | .Float f => f.finite
  | .Multifield vs => floats_finite_elems vs
  | _ => true
termination_by structural v => v

/-- Finiteness of every float payload across a list of values. -/
def floats_finite_elems : List CLIPSValue → Bool
  | [] => true
  | v :: vs => floats_finite v && floats_finite_elems vs
termination_by structural vs => vs

end

mutual

/-- Round-trip of one value with finite float payloads through serde_json. -/
theorem deserialize_serialize :
    ∀ v : CLIPSValue, floats_finite v = true →
      deserialize_clipsvalue (serialize_clipsvalue v) = some v
  | .Symbol s, _ => by simp [serialize_clipsvalue, deserialize_clipsvalue, visit_map]
  | .Int i, _ => by simp [serialize_clipsvalue, deserialize_clipsvalue, visit_map]
  | .String s, _ => by simp [serialize_clipsvalue, deserialize_clipsvalue, visit_map]
  | .Float f, h => by
      simp only [floats_finite] at h
      simp [serialize_clipsvalue, deserialize_clipsvalue, visit_map, h]
  | .Bool b, _ => by simp [serialize_clipsvalue, deserialize_clipsvalue, visit_map]
  | .Multifield vs, h => by
      simp only [floats_finite] at h
      simp [serialize_clipsvalue, deserialize_clipsvalue, visit_map,
        deserialize_serialize_elems vs h]
termination_by structural v => v

/-- Round-trip of a list of values with finite float payloads. -/
theorem deserialize_serialize_elems :
    ∀ vs : List CLIPSValue, floats_finite_elems vs = true →
      deserialize_elems (serialize_elems vs) = some vs
  | [], _ => by simp [serialize_elems, deserialize_elems]
  | v :: vs, h => by
      simp only [floats_finite_elems, Bool.and_eq_true] at h
      simp [serialize_elems, deserialize_elems, deserialize_serialize v h.1,
        deserialize_serialize_elems vs h.2]
termination_by structural vs => vs

end

/-- C5 counterexample: for a NaN float payload (bit pattern
0x7FF8000000000000, exponent bits all ones) the round-trip fails outright —
serde_json serializes the non-finite f64 as null, which the visitor's
`next_value::<f64>()` cannot deserialize — so deserializing the serialization
of `Float(NaN)` yields an error, not a value equal to the input (and under
the program's derived `PartialEq`, NaN is not even equal to itself). -/
theorem c5_nan_float_fails_roundtrip :
    deserialize_clipsvalue (serialize_clipsvalue
        (CLIPSValue.Float ⟨0x7FF8000000000000⟩)) = none ∧
    deserialize_clipsvalue (serialize_clipsvalue
        (CLIPSValue.Float ⟨0x7FF8000000000000⟩)) ≠
      some (CLIPSValue.Float ⟨0x7FF8000000000000⟩) := by
  refine ⟨rfl, fun h => ?_⟩
  rw [show deserialize_clipsvalue (serialize_clipsvalue
      (CLIPSValue.Float ⟨0x7FF8000000000000⟩)) = none from rfl] at h
  exact Option.noConfusion h

/-- C5 (amended): deserializing the JSON serialization of v — the derived
`Serialize` impl composed with the `CLIPSValueVisitor` deserializer — yields
the original value for every `CLIPSValue` all of whose float payloads (at any
nesting depth) are finite, for every variant including arbitrarily nested
Multifields; a non-finite float payload makes the round-trip fail, since
serde_json writes it as null, which the visitor rejects. -/
theorem c5_json_roundtrip_finite (v : CLIPSValue) (h : floats_finite v = true) :
    deserialize_clipsvalue (serialize_clipsvalue v) = some v :=
  deserialize_serialize v h

/-- Witness for C5: a depth-2 Multifield containing a finite float and a
nested Multifield round-trips to itself. -/
theorem c5_json_roundtrip_finite_witness :
    floats_finite (CLIPSValue.Multifield
      [CLIPSValue.Float ⟨0⟩, CLIPSValue.Multifield [CLIPSValue.Int 3]]) = true ∧
    deserialize_clipsvalue (serialize_clipsvalue (CLIPSValue.Multifield
      [CLIPSValue.Float ⟨0⟩, CLIPSValue.Multifield [CLIPSValue.Int 3]])) =
      some (CLIPSValue.Multifield
        [CLIPSValue.Float ⟨0⟩, CLIPSValue.Multifield [CLIPSValue.Int 3]]) :=
  ⟨by decide,
    c5_json_roundtrip_finite
      (CLIPSValue.Multifield
        [CLIPSValue.Float ⟨0⟩, CLIPSValue.Multifield [CLIPSValue.Int 3]])
      (by decide)⟩

/-- Error taxonomy, from `CLIPSError` in src/clips/src/error.rs. The payloads
of `IO` and `UDFDataConversion` are omitted (no claim depends on them); the
`IO` variant is named `IOError` here. -/
inductive CLIPSError where
  | EnvironmentNotCreated
  | PathNotUnicode
  | ParsingError
  | ProcessingError
  | LoadFromString
  | BatchStar
  | MinArgumentsExceedsMax
  | ArgumentNotRetrieved
  | NameInUse
  | AddRouter
  | ChDir
  | ThreadExited
  | TaskExitedUnexpectedly
  | IOError
  | UDFDataConversion
  | UnableToAssertFact
  | UnableToMakeInstance
  | RuleNetwork
  | FactOrInstanceRemoved
  | SlotNotFound
  | SlotTypeViolated
  | SlotRangeViolated
  | SlotAllowedValuesViolated
  | SlotCardinalityViolated
  | SlotAllowedClassesViolated
  | UnableToSaveFacts
  | UnableToLoadFacts
  | UnableToSaveInstances
  | UnableToLoadInstances
  | UnexpectedConstructType (code : Nat)
  | DefglobalNotFound
  | Unknown
deriving DecidableEq, Repr

/-- Router capability set, from the `RouterSupport` bitflags in
src/clips/src/router.rs (WRITE, READ, SIGNAL); a flag is modelled as a
boolean field and `contains` as field projection. -/
structure RouterSupport where
  write : Bool
  read : Bool
  signal : Bool
deriving DecidableEq, Repr

/-- Which native router callback slots `AddRouter` is given, from
`CLIPSEnvironment::add_router` (lib.rs lines 797-821): a field is true when
the corresponding argument is `Some(callback)` and false when it is `None`. -/
structure NativeRouterSlots where
  querySlot : Bool
  writeSlot : Bool
  readSlot : Bool
  unreadSlot : Bool
  exitSlot : Bool
deriving DecidableEq, Repr

/-- Slot installation of `add_router` (lib.rs lines 797-821): query and exit
are always installed; write only under the WRITE capability; read and unread
only under the READ capability. -/
def add_router_slots (supports : RouterSupport) : NativeRouterSlots :=
  { querySlot := true
    writeSlot := supports.write
    readSlot := supports.read
    unreadSlot := supports.read
    exitSlot := true }

/-- Engine-side dispatch of a read request to a registered router: the engine
invokes the read slot only when it was installed (a `None` slot is never
called); an installed slot runs `router_read` (router.rs lines 74-92), which
returns the router's answer or -1 for "none". The result `none` means the
router's handler was never invoked. -/
def engine_invoke_read (slots : NativeRouterSlots) (routerAnswer : Option Int) : Option Int :=
  if slots.readSlot then some (routerAnswer.getD (-1)) else none

/-- Engine-side dispatch of an unread request, mirroring `router_unread`
(router.rs lines 94-113) behind its installed slot. -/
def engine_invoke_unread (slots : NativeRouterSlots) (routerAnswer : Option Int) : Option Int :=
  if slots.unreadSlot then some (routerAnswer.getD (-1)) else none

/-- C7: a capability-specific slot is installed exactly when the router
declares the capability (write under WRITE; read and unread under READ), and
the engine's read and unread dispatch never reaches a router that did not
declare READ — in particular a router registered with only the Write
capability never receives read or unread invocations. -/
theorem c7_router_slots_match_capabilities (s : RouterSupport) (r : Option Int) :
    (add_router_slots s).writeSlot = s.write ∧
    (add_router_slots s).readSlot = s.read ∧
    (add_router_slots s).unreadSlot = s.read ∧
    engine_invoke_read (add_router_slots s) r =
      (if s.read then some (r.getD (-1)) else none) ∧
    engine_invoke_unread (add_router_slots s) r =
      (if s.read then some (r.getD (-1)) else none) := by
  refine ⟨rfl, rfl, rfl, ?_, ?_⟩ <;>
    simp [engine_invoke_read, engine_invoke_unread, add_router_slots]

/-- Calls made against the native engine by the outbound collection
conversions, recorded as a trace: the multifield-builder protocol plus the
scalar interning routines and the final put-slot calls. -/
inductive EngineCall where
  | createMultifieldBuilder (capacity : Nat)
  | mbAppend
  | mbCreate
  | mbDispose
  | createInteger
  | createString
  | createSymbol
  | createBoolean
  | createFloat
  | fbPutSlotMultifield
  | ibPutSlotMultifield
deriving DecidableEq, Repr

mutual

/-- Native-call trace of the host-to-engine conversion of one `CLIPSValue`
(`impl CLIPSFrom<CLIPSValue>`, value.rs lines 94-105, dispatching to the
scalar conversions and, for Multifield, to the Vec conversion). -/
def clipsfrom_clipsvalue_trace : CLIPSValue → List EngineCall
  | .Int _ => [.createInteger]
  | .String _ => [.createString]
  | .Symbol _ => [.createSymbol]
  | .Float _ => [.createFloat]
  | .Bool _ => [.createBoolean]
  | .Multifield vs =>
      .createMultifieldBuilder vs.length :: (append_loop_trace vs ++ [.mbCreate])
termination_by structural v => v

/-- Native-call trace of the element loop shared by the collection
conversions: each element is converted, then `MBAppend`ed. -/
def append_loop_trace : List CLIPSValue → List EngineCall
  | [] => []
  | v :: vs => clipsfrom_clipsvalue_trace v ++ [.mbAppend] ++ append_loop_trace vs
termination_by structural vs => vs

end

/-- Native-call trace of `impl CLIPSFrom<Vec<CLIPSValue>>` (value.rs lines
77-92): `CreateMultifieldBuilder`, the append loop, then `MBCreate`; the
source contains no `MBDispose` call. -/
def clipsfrom_vec_trace (vs : List CLIPSValue) : List EngineCall :=
  .createMultifieldBuilder vs.length :: (append_loop_trace vs ++ [.mbCreate])

/-- Native-call trace of `FactBuilderData::put_multifield_slot`
(fact_builder.rs lines 101-122): builder created, elements appended,
`MBCreate`, then `MBDispose` immediately after, then `FBPutSlotMultifield`. -/
def fact_put_multifield_slot_trace (vs : List CLIPSValue) : List EngineCall :=
  .createMultifieldBuilder vs.length ::
    (append_loop_trace vs ++ [.mbCreate, .mbDispose, .fbPutSlotMultifield])

/-- Native-call trace of `InstanceBuilderData::put_multifield_slot`
(instance_builder.rs lines 108-129): builder created, elements appended,
`MBCreate`, then `MBDispose` immediately after, then `IBPutSlotMultifield`. -/
def instance_put_multifield_slot_trace (vs : List CLIPSValue) : List EngineCall :=
  .createMultifieldBuilder vs.length ::
    (append_loop_trace vs ++ [.mbCreate, .mbDispose, .ibPutSlotMultifield])

/-- C8: the Vec conversion `CLIPSFrom<Vec<CLIPSValue>>` creates a multifield
builder and finalizes it with `MBCreate` but never calls `MBDispose` — the
builder handle is not disposed within the call — while both
`put_multifield_slot` setters do dispose it immediately after `MBCreate`. -/
theorem c8_vec_conversion_never_disposes_builder :
    EngineCall.createMultifieldBuilder 1 ∈ clipsfrom_vec_trace [CLIPSValue.Int 1] ∧
    EngineCall.mbCreate ∈ clipsfrom_vec_trace [CLIPSValue.Int 1] ∧
    EngineCall.mbDispose ∉ clipsfrom_vec_trace [CLIPSValue.Int 1] ∧
    fact_put_multifield_slot_trace [CLIPSValue.Int 1] =
      [.createMultifieldBuilder 1, .createInteger, .mbAppend,
        .mbCreate, .mbDispose, .fbPutSlotMultifield] ∧
    instance_put_multifield_slot_trace [CLIPSValue.Int 1] =
      [.createMultifieldBuilder 1, .createInteger, .mbAppend,
        .mbCreate, .mbDispose, .ibPutSlotMultifield] := by
  refine ⟨?_, ?_, ?_, rfl, rfl⟩ <;>
    simp [clipsfrom_vec_trace, append_loop_trace, clipsfrom_clipsvalue_trace]

/-- Association-list lookup, modelling `HashMap::get` on the per-environment
name-keyed tables. -/
def lookupAssoc {A : Type} (k : String) : List (String × A) → Option A
  | [] => none
  | (k2, v) :: rest => if k2 = k then some v else lookupAssoc k rest

/-- Association-list insert, modelling `HashMap::insert`: replaces the value
stored under an existing key, otherwise adds the entry. -/
def insertAssoc {A : Type} (k : String) (v : A) : List (String × A) → List (String × A)
  | [] => [(k, v)]
  | (k2, v2) :: rest =>
      if k2 = k then (k2, v) :: rest else (k2, v2) :: insertAssoc k v rest

/-- Association-list removal, modelling `HashMap::remove`. -/
def removeAssoc {A : Type} (k : String) : List (String × A) → List (String × A)
  | [] => []
  | (k2, v2) :: rest => if k2 = k then rest else (k2, v2) :: removeAssoc k rest

/-- Association-list in-place update of an existing key (the entry set is
unchanged; an absent key leaves the list untouched). -/
def updateAssoc {A : Type} (k : String) (f : A → A) : List (String × A) → List (String × A)
  | [] => []
  | (k2, v) :: rest =>
      if k2 = k then (k2, f v) :: rest else (k2, v) :: updateAssoc k f rest

/-- Conflict-resolution strategies, from `ConflictResolutionStrategy`
(lib.rs lines 36-45). -/
inductive Strategy where
  | depth | breadth | lex | mea | complexity | simplicity | random
deriving DecidableEq, Repr

/-- Signals delivered to routers around run operations, from `CLIPSSignal`
(lib.rs lines 64-68). -/
inductive CLIPSSignal where
  | runStarted (limit : Option Nat)
  | runFinished (limit : Option Nat)
deriving DecidableEq, Repr

/-- Outcomes the external engine can report to the operations the actor
performs. The engine is an external collaborator (out of scope of the spec),
so its per-operation results are modelled as an oracle the theorems quantify
over; the bridging layer's behavior for each possible outcome is what is
verified. -/
structure EngineOracle where
  loadFromStringOk : String → Bool
  batchStarOk : String → Bool
  chdirOk : String → Bool
  runWith : Option Nat → Nat
  addRouterOk : String → Bool
  fbAssertNull : String → Bool
  fbErrorCouldNotAssert : Bool
  ibMakeNull : String → Bool
  ibErrorCouldNotCreate : Bool
  parsingFile : String
  parsingLine : Nat
  binarySaveFactsRes : String → Int
  binaryLoadFactsRes : String → Int
  binarySaveInstancesRes : String → Int
  binaryLoadInstancesRes : String → Int

/-- Engine oracle in which every operation succeeds with neutral results. -/
def defaultOracle : EngineOracle where
  loadFromStringOk := fun _ => true
  batchStarOk := fun _ => true
  chdirOk := fun _ => true
  runWith := fun _ => 0
  addRouterOk := fun _ => true
  fbAssertNull := fun _ => false
  fbErrorCouldNotAssert := true
  ibMakeNull := fun _ => false
  ibErrorCouldNotCreate := true
  parsingFile := ""
  parsingLine := 0
  binarySaveFactsRes := fun _ => 0
  binaryLoadFactsRes := fun _ => 0
  binarySaveInstancesRes := fun _ => 0
  binaryLoadInstancesRes := fun _ => 0

/-- State owned by the actor: the per-environment extra-data tables (UDF map,
router map, pending-string arena, from lib.rs lines 514-520), the engine's own
UDF registry, the cached builders (`fact_builders` / `instance_builders`,
lib.rs lines 525-526), the engine's defglobal store (module name to defglobal
name to current value), the two engine settings the actor can toggle, and a
log of signals delivered to routers. User-function closures are identified by
numeric ids. -/
structure EnvState where
  udfMap : List (String × Nat)
  engineUdfNames : List String
  routerMap : List (String × RouterSupport)
  stringsToDrop : List String
  factBuilders : List String
  instanceBuilders : List String
  globals : List (String × List (String × EngineValue))
  dynamicConstraintChecking : Bool
  strategy : Strategy
  signalLog : List (String × CLIPSSignal)

/-- State of a freshly created environment (`CLIPSEnvironment::new`: empty
tables, no builders yet). -/
def initialEnv : EnvState where
  udfMap := []
  engineUdfNames := []
  routerMap := []
  stringsToDrop := []
  factBuilders := []
  instanceBuilders := []
  globals := []
  dynamicConstraintChecking := false
  strategy := .depth
  signalLog := []

/-- Result of the native `AddUDF` registration. The invalid-argument-type and
invalid-return-type codes cannot arise because the library generates the type
character codes itself (the source marks those arms unreachable), so only the
three producible outcomes are modelled. -/
inductive AddUDFResult where
  | noError
  | minExceedsMax
  | nameInUse
deriving DecidableEq, Repr

/-- Modelled engine primitive: native `AddUDF` fails with the name-in-use code
when the name is already registered and with the min-exceeds-max code when the
declared minimum arity exceeds the maximum; otherwise it registers the name.
The relative order of the two failure checks is not observable in the claims
below. -/
def engineAddUDF (names : List String) (name : String) (minArgs maxArgs : Nat) :
    List String × AddUDFResult :=
  if names.contains name then (names, .nameInUse)
  else if maxArgs < minArgs then (names, .minExceedsMax)
  else (names ++ [name], .noError)

/-- Registration of a user function, from `CLIPSEnvironment::add_udf`
(lib.rs lines 720-768), in source order: the closure is inserted into the UDF
map and the name pushed into the string arena BEFORE the native `AddUDF` call,
and neither insertion is rolled back when the native call fails. -/
def add_udf (st : EnvState) (name : String) (minArgs maxArgs : Nat) (functionId : Nat) :
    EnvState × Except CLIPSError Unit :=
  let st1 := { st with udfMap := insertAssoc name functionId st.udfMap }
  let st2 := { st1 with stringsToDrop := st1.stringsToDrop ++ [name] }
  match engineAddUDF st2.engineUdfNames name minArgs maxArgs with
  | (names2, .noError) => ({ st2 with engineUdfNames := names2 }, .ok ())
  | (_, .minExceedsMax) => (st2, .error .MinArgumentsExceedsMax)
  | (_, .nameInUse) => (st2, .error .NameInUse)

/-- Callback bridge for user functions, from `call_udf` (router.rs lines
131-146): the registration name is recovered from the context and looked up in
the UDF map; the stored closure (identified here by its id) is the one
invoked. -/
def call_udf (st : EnvState) (udfName : String) : Option Nat :=
  lookupAssoc udfName st.udfMap

/-- Removal of a user function, from `CLIPSEnvironment::remove_udf`
(lib.rs lines 770-778): the closure is dropped from the UDF map, then the
native `RemoveUDF` reports whether the engine had the function. -/
def remove_udf (st : EnvState) (name : String) : EnvState × Bool :=
  let st1 := { st with udfMap := removeAssoc name st.udfMap }
  let res := st1.engineUdfNames.contains name
  ({ st1 with engineUdfNames := st1.engineUdfNames.filter (fun n => n ≠ name) }, res)

/-- Registration of a router, from `CLIPSEnvironment::add_router`
(lib.rs lines 780-828): the router is inserted into the router map and its
name pushed into the string arena before the native `AddRouter` call; the
capability-dependent slot installation is `add_router_slots`. -/
def add_router (o : EngineOracle) (st : EnvState) (name : String)
    (supports : RouterSupport) : EnvState × Except CLIPSError Unit :=
  let st1 := { st with routerMap := insertAssoc name supports st.routerMap }
  let st2 := { st1 with stringsToDrop := st1.stringsToDrop ++ [name] }
  if o.addRouterOk name then (st2, .ok ()) else (st2, .error .AddRouter)

/-- Signal broadcast, from `CLIPSEnvironment::send_routers_signal`
(lib.rs lines 666-675): every router whose capability set contains SIGNAL
receives the signal; delivery is recorded in the log. -/
def send_routers_signal (st : EnvState) (signal : CLIPSSignal) : EnvState :=
  { st with
      signalLog := st.signalLog ++
        (st.routerMap.filter (fun p => p.2.signal)).map (fun p => (p.1, signal)) }

/-- Unbounded run, from `CLIPSEnvironment::run` (lib.rs lines 704-710):
run-started signal, native `Run` with -1, run-finished signal; the number of
rules fired is returned. -/
def run (o : EngineOracle) (st : EnvState) : EnvState × Except CLIPSError Nat :=
  let st1 := send_routers_signal st (.runStarted none)
  let fired := o.runWith none
  let st2 := send_routers_signal st1 (.runFinished none)
  (st2, .ok fired)

/-- Bounded run, from `CLIPSEnvironment::run_limit` (lib.rs lines 712-718):
run-started signal carrying the limit, native `Run` with the limit,
run-finished signal; the number of rules fired is returned. -/
def run_limit (o : EngineOracle) (st : EnvState) (limit : Nat) :
    EnvState × Except CLIPSError Nat :=
  let st1 := send_routers_signal st (.runStarted (some limit))
  let fired := o.runWith (some limit)
  let st2 := send_routers_signal st1 (.runFinished (some limit))
  (st2, .ok fired)

/-- Source-text load, from `CLIPSEnvironment::load_from_str` (lib.rs lines
677-686). -/
def load_from_str (o : EngineOracle) (data : String) : Except CLIPSError Unit :=
  if o.loadFromStringOk data then .ok () else .error .LoadFromString

/-- Batch file load, from `CLIPSEnvironment::batch_star` (lib.rs lines
688-702); paths are modelled as strings, so the non-unicode-path failure
cannot arise here. -/
def batch_star (o : EngineOracle) (filePath : String) : Except CLIPSError Unit :=
  if o.batchStarOk filePath then .ok () else .error .BatchStar

/-- Working-directory change as dispatched by the actor loop (lib.rs lines
441-443): `set_current_dir` with the io error mapped into the error type. -/
def ch_dir (o : EngineOracle) (newDir : String) : Except CLIPSError Unit :=
  if o.chdirOk newDir then .ok () else .error .IOError

/-- Fact assertion, from `CLIPSEnvironment::assert_fact` (lib.rs lines
830-850) and `FactBuilderData::assert` (fact_builder.rs lines 26-43): the
builder for the template is created and cached on first use; the caller's
`IntoFactOrInstance` impl runs (its result is carried in the command); then
`FBAssert`, whose null result is classified by `FBError` into could-not-assert
or rule-network. -/
def assert_fact (o : EngineOracle) (st : EnvState) (templateName : String)
    (userResult : Except CLIPSError Unit) : EnvState × Except CLIPSError Unit :=
  let st1 :=
    if st.factBuilders.contains templateName then st
    else { st with factBuilders := st.factBuilders ++ [templateName] }
  match userResult with
  | .error e => (st1, .error e)
  | .ok () =>
      if o.fbAssertNull templateName then
        (st1, .error (if o.fbErrorCouldNotAssert then .UnableToAssertFact else .RuleNetwork))
      else (st1, .ok ())

/-- Instance creation, from `CLIPSEnvironment::make_instance` (lib.rs lines
852-874) and `InstanceBuilderData::make` (instance_builder.rs lines 26-50):
builder cached per class name; the caller's impl runs; then `IBMake`, whose
null result is classified into could-not-create or rule-network. -/
def make_instance (o : EngineOracle) (st : EnvState) (templateName : String)
    (userResult : Except CLIPSError Unit) (_instanceName : Option String) :
    EnvState × Except CLIPSError Unit :=
  let st1 :=
    if st.instanceBuilders.contains templateName then st
    else { st with instanceBuilders := st.instanceBuilders ++ [templateName] }
  match userResult with
  | .error e => (st1, .error e)
  | .ok () =>
      if o.ibMakeNull templateName then
        (st1, .error (if o.ibErrorCouldNotCreate then .UnableToMakeInstance else .RuleNetwork))
      else (st1, .ok ())

/-- Binary save of facts, from `CLIPSEnvironment::binary_save_facts`
(lib.rs lines 896-912): -1 from the engine maps to the save-facts failure,
any other count is returned. -/
def binary_save_facts (res : Int) : Except CLIPSError Nat :=
  if res = -1 then .error .UnableToSaveFacts else .ok res.toNat

/-- Binary load of facts, from `CLIPSEnvironment::binary_load_facts`
(lib.rs lines 914-926): -1 from the engine maps to `UnableToSaveFacts` —
the save-facts error kind, exactly as in the source — any other count is
returned. -/
def binary_load_facts (res : Int) : Except CLIPSError Nat :=
  if res = -1 then .error .UnableToSaveFacts else .ok res.toNat

/-- Binary save of instances, from `CLIPSEnvironment::binary_save_instances`
(lib.rs lines 928-944). -/
def binary_save_instances (res : Int) : Except CLIPSError Nat :=
  if res = -1 then .error .UnableToSaveInstances else .ok res.toNat

/-- Binary load of instances, from `CLIPSEnvironment::binary_load_instances`
(lib.rs lines 946-958): -1 maps to `UnableToSaveInstances` — the
save-instances error kind, exactly as in the source. -/
def binary_load_instances (res : Int) : Except CLIPSError Nat :=
  if res = -1 then .error .UnableToSaveInstances else .ok res.toNat

/-- Two-level globals snapshot type: module name to (variable name to value),
from `CLIPSGlobalsHierarchy` (lib.rs line 34); hash-map iteration order is
abstracted as list order. -/
def GlobalsHierarchy : Type := List (String × List (String × CLIPSValue))

/-- Engine-side defglobal store: module name to (defglobal name to its
current value). -/
def GlobalsStore : Type := List (String × List (String × EngineValue))

/-- Modelled engine primitive: `FindDefglobal` resolves a module-qualified
name against the live defglobal list (the source formats "module::name" and
the engine parses it back; the model works on the pair directly). -/
def findDefglobal (store : GlobalsStore) (moduleName globalName : String) :
    Option EngineValue :=
  match lookupAssoc moduleName store with
  | none => none
  | some gs => lookupAssoc globalName gs

/-- Modelled engine primitive: `DefglobalSetValue` overwrites the current
value of an existing defglobal; the set of defglobals never changes. -/
def defglobalSetValue (store : GlobalsStore) (moduleName globalName : String)
    (v : EngineValue) : GlobalsStore :=
  updateAssoc moduleName (updateAssoc globalName (fun _ => v)) store

/-- Snapshot of the globals, from `CLIPSEnvironment::retrieve_globals_values`
(lib.rs lines 961-1002): every module's defglobal list is walked directly and
each current value converted through `extract_clipsvalue`. The defensive
construct-type check always passes here because the modelled engine's
defglobal list contains only defglobals. -/
def retrieve_globals_values (st : EnvState) : Except CLIPSError GlobalsHierarchy :=
  .ok (st.globals.map (fun p => (p.1, p.2.map (fun q => (q.1, extract_clipsvalue q.2)))))

/-- Flattening of the nested restore loops (`for (module_name, globals)` then
`for (global_name, global_value)`, lib.rs lines 1005-1006) into the sequence
of processed entries. -/
def flattenGlobals (globals : GlobalsHierarchy) : List (String × String × CLIPSValue) :=
  globals.flatMap (fun p => p.2.map (fun q => (p.1, q.1, q.2)))

/-- Entry-at-a-time core of `CLIPSEnvironment::restore_globals` (lib.rs lines
1004-1025): each entry's value is converted host-to-engine, the qualified name
resolved with `FindDefglobal`; an unresolved name returns the
defglobal-not-found error immediately, leaving every earlier write applied;
otherwise `DefglobalSetValue` writes and the loop continues. -/
def restore_entries : List (String × String × CLIPSValue) → GlobalsStore →
    GlobalsStore × Except CLIPSError Unit
  | [], store => (store, .ok ())
  | (moduleName, globalName, v) :: rest, store =>
      match findDefglobal store moduleName globalName with
      | none => (store, .error .DefglobalNotFound)
      | some _ =>
          restore_entries rest
            (defglobalSetValue store moduleName globalName (clipsfrom_clipsvalue v))

/-- Restore of a globals snapshot, from `CLIPSEnvironment::restore_globals`
(lib.rs lines 1004-1025). -/
def restore_globals (globals : GlobalsHierarchy) (store : GlobalsStore) :
    GlobalsStore × Except CLIPSError Unit :=
  restore_entries (flattenGlobals globals) store

/-- Cumulative effect of applying a list of entries unconditionally (used to
state what the store looks like after a partial restore). -/
def applyEntries : List (String × String × CLIPSValue) → GlobalsStore → GlobalsStore
  | [], store => store
  | (moduleName, globalName, v) :: rest, store =>
      applyEntries rest
        (defglobalSetValue store moduleName globalName (clipsfrom_clipsvalue v))

theorem lookupAssoc_updateAssoc_eq {A : Type} (k : String) (f : A → A) :
    ∀ l : List (String × A), lookupAssoc k (updateAssoc k f l) = (lookupAssoc k l).map f
  | [] => rfl
  | (k3, v) :: rest => by
      by_cases h3 : k3 = k
      · subst h3
        simp [updateAssoc, lookupAssoc]
      · simp [updateAssoc, lookupAssoc, h3, lookupAssoc_updateAssoc_eq k f rest]

theorem lookupAssoc_updateAssoc_ne {A : Type} (k k2 : String) (hk : k ≠ k2) (f : A → A) :
    ∀ l : List (String × A), lookupAssoc k (updateAssoc k2 f l) = lookupAssoc k l
  | [] => rfl
  | (k3, v) :: rest => by
      by_cases h3 : k3 = k2
      · subst h3
        have h : k3 ≠ k := fun h => hk (h ▸ rfl)
        simp [updateAssoc, lookupAssoc, h]
      · by_cases h : k3 = k <;>
          simp [updateAssoc, lookupAssoc, h, h3, hk,
            lookupAssoc_updateAssoc_ne k k2 hk f rest]

theorem lookupAssoc_updateAssoc_isSome {A : Type} (k k2 : String) (f : A → A)
    (l : List (String × A)) :
    (lookupAssoc k (updateAssoc k2 f l)).isSome = (lookupAssoc k l).isSome := by
  by_cases hk : k = k2
  · subst hk
    rw [lookupAssoc_updateAssoc_eq]
    cases lookupAssoc k l <;> rfl
  · rw [lookupAssoc_updateAssoc_ne k k2 hk]

theorem findDefglobal_set_isSome (store : GlobalsStore) (m n m2 n2 : String)
    (v : EngineValue) :
    (findDefglobal (defglobalSetValue store m2 n2 v) m n).isSome =
      (findDefglobal store m n).isSome := by
  unfold findDefglobal defglobalSetValue
  by_cases hm : m = m2
  · subst hm
    rw [lookupAssoc_updateAssoc_eq]
    cases lookupAssoc m store with
    | none => rfl
    | some gs =>
        simp [lookupAssoc_updateAssoc_isSome]
  · rw [lookupAssoc_updateAssoc_ne m m2 hm]

theorem takeWhile_congr_mem {A : Type} (p q : A → Bool) :
    ∀ l : List A, (∀ a ∈ l, p a = q a) → l.takeWhile p = l.takeWhile q
  | [], _ => rfl
  | a :: l, h => by
      have ha := h a (List.mem_cons_self a l)
      have hl := takeWhile_congr_mem p q l (fun x hx => h x (List.mem_cons_of_mem a hx))
      simp [List.takeWhile_cons, ha, hl]

theorem restore_entries_spec (entries : List (String × String × CLIPSValue))
    (store : GlobalsStore)
    (h : ∃ e ∈ entries, (findDefglobal store e.1 e.2.1).isSome = false) :
    (restore_entries entries store).2 = .error CLIPSError.DefglobalNotFound ∧
    (restore_entries entries store).1 =
      applyEntries
        (entries.takeWhile (fun e => (findDefglobal store e.1 e.2.1).isSome)) store := by
  induction entries generalizing store with
  | nil => simp at h
  | cons e rest ih =>
      obtain ⟨m, n, v⟩ := e
      cases hfd : findDefglobal store m n with
      | none =>
          have hfalse : (findDefglobal store m n).isSome = false := by simp [hfd]
          simp [restore_entries, hfd, List.takeWhile_cons, hfalse, applyEntries]
      | some w =>
          have htrue : (findDefglobal store m n).isSome = true := by simp [hfd]
          have hrest : ∃ e2 ∈ rest,
              (findDefglobal
                (defglobalSetValue store m n (clipsfrom_clipsvalue v)) e2.1 e2.2.1).isSome
                = false := by
            obtain ⟨e2, he2, hnone⟩ := h
            rcases List.mem_cons.mp he2 with heq | hmem
            · exfalso
              subst heq
              rw [htrue] at hnone
              exact Bool.noConfusion hnone
            · exact ⟨e2, hmem, by rw [findDefglobal_set_isSome]; exact hnone⟩
          have ihres := ih (defglobalSetValue store m n (clipsfrom_clipsvalue v)) hrest
          have hpred : ∀ e2 : String × String × CLIPSValue,
              (findDefglobal
                (defglobalSetValue store m n (clipsfrom_clipsvalue v)) e2.1 e2.2.1).isSome
                = (findDefglobal store e2.1 e2.2.1).isSome := by
            intro e2
            rw [findDefglobal_set_isSome]
          constructor
          · rw [show (restore_entries ((m, n, v) :: rest) store).2 =
                (restore_entries rest
                  (defglobalSetValue store m n (clipsfrom_clipsvalue v))).2 from by
                simp [restore_entries, hfd]]
            exact ihres.1
          · rw [show (restore_entries ((m, n, v) :: rest) store).1 =
                (restore_entries rest
                  (defglobalSetValue store m n (clipsfrom_clipsvalue v))).1 from by
                simp [restore_entries, hfd]]
            rw [ihres.2]
            have htw : List.takeWhile
                (fun e2 => (findDefglobal
                  (defglobalSetValue store m n (clipsfrom_clipsvalue v)) e2.1 e2.2.1).isSome)
                rest =
                List.takeWhile (fun e2 => (findDefglobal store e2.1 e2.2.1).isSome) rest := by
              apply takeWhile_congr_mem
              intro e2 _
              exact hpred e2
            rw [htw]
            simp [List.takeWhile_cons, htrue, applyEntries]

/-- C6: if some snapshot entry names a defglobal that does not exist in the
engine, `restore_globals` returns the defglobal-not-found error, and the
resulting store is exactly the original store with every entry processed
before the first failing one applied — restore is not transactional. -/
theorem c6_restore_globals_not_transactional (globals : GlobalsHierarchy)
    (store : GlobalsStore)
    (h : ∃ e ∈ flattenGlobals globals, (findDefglobal store e.1 e.2.1).isSome = false) :
    (restore_globals globals store).2 = .error CLIPSError.DefglobalNotFound ∧
    (restore_globals globals store).1 =
      applyEntries
        ((flattenGlobals globals).takeWhile
          (fun e => (findDefglobal store e.1 e.2.1).isSome)) store :=
  restore_entries_spec (flattenGlobals globals) store h

/-- Witness for C6: restoring the snapshot mapping MAIN::a to 7 and MAIN::b
to 8 into a store that only defines MAIN::a fails with defglobal-not-found,
and MAIN::a has already been updated to 7 (partial effect). -/
theorem c6_restore_globals_witness :
    (∃ e ∈ flattenGlobals [("MAIN", [("a", CLIPSValue.Int 7), ("b", CLIPSValue.Int 8)])],
      (findDefglobal [("MAIN", [("a", EngineValue.integer 1)])] e.1 e.2.1).isSome = false) ∧
    (restore_globals [("MAIN", [("a", CLIPSValue.Int 7), ("b", CLIPSValue.Int 8)])]
        [("MAIN", [("a", EngineValue.integer 1)])]).2 =
      .error CLIPSError.DefglobalNotFound ∧
    (restore_globals [("MAIN", [("a", CLIPSValue.Int 7), ("b", CLIPSValue.Int 8)])]
        [("MAIN", [("a", EngineValue.integer 1)])]).1 =
      applyEntries
        ((flattenGlobals [("MAIN", [("a", CLIPSValue.Int 7), ("b", CLIPSValue.Int 8)])]).takeWhile
          (fun e => (findDefglobal [("MAIN", [("a", EngineValue.integer 1)])] e.1 e.2.1).isSome))
        [("MAIN", [("a", EngineValue.integer 1)])] := by
  refine ⟨⟨("MAIN", "b", CLIPSValue.Int 8), ?_, ?_⟩, ?_⟩
  · simp [flattenGlobals]
  · simp [findDefglobal, lookupAssoc]
  · exact c6_restore_globals_not_transactional _ _
      ⟨("MAIN", "b", CLIPSValue.Int 8), by simp [flattenGlobals],
        by simp [findDefglobal, lookupAssoc]⟩

/-- Commands of the actor protocol, from `CLIPSEnvironmentCommand` (lib.rs
lines 325-408), one case per variant. A user-supplied `IntoFactOrInstance`
impl is represented by the template name it reports and the result its
`into_fact_or_instance` returns; a UDF closure by a numeric id; the UDF type
masks are omitted (no claim depends on them). The response slot of each
variant is implicit: the actor produces exactly one `Response` per dispatched
command. -/
inductive Command where
  | loadFromStr (data : String)
  | batchStar (filePath : String)
  | run
  | runLimit (limit : Nat)
  | chDir (newDir : String)
  | addUDF (name : String) (minArgs maxArgs : Nat) (functionId : Nat)
  | addRouter (name : String) (priority : Int) (supports : RouterSupport)
  | removeUDF (name : String)
  | assertFact (templateName : String) (userResult : Except CLIPSError Unit)
  | makeInstance (templateName : String) (userResult : Except CLIPSError Unit)
      (instanceName : Option String)
  | setDynamicConstraintChecking (value : Bool)
  | setConflictResolutionStrategy (value : Strategy)
  | getCurrentParsingLocation
  | binarySaveFacts (path : String)
  | binaryLoadFacts (path : String)
  | binarySaveInstances (path : String)
  | binaryLoadInstances (path : String)
  | retrieveGlobalsValues
  | restoreGlobals (globals : GlobalsHierarchy)
  | close

/-- Response sent through a command's one-shot channel, one constructor per
response-slot type appearing in `CLIPSEnvironmentCommand`. -/
inductive Response where
  | resUnit (r : Except CLIPSError Unit)
  | resUsize (r : Except CLIPSError Nat)
  | resBool (r : Bool)
  | resPlain
  | resLoc (fileName : String) (line : Nat)
  | resGlobals (r : Except CLIPSError GlobalsHierarchy)

/-- Dispatch of one dequeued command, from the match arms of
`clips_environment_task` (lib.rs lines 432-505): each arm calls the
corresponding `CLIPSEnvironment` method and the value it sends through the
command's response channel is recorded as the `Response`. The `close` arm is
never dispatched here — the loop breaks on it before executing anything. -/
def execCommand (o : EngineOracle) : Command → EnvState → EnvState × Response
  | .loadFromStr data, st => (st, .resUnit (load_from_str o data))
  | .batchStar filePath, st => (st, .resUnit (batch_star o filePath))
  | .run, st =>
      let p := run o st
      (p.1, .resUsize p.2)
  | .runLimit limit, st =>
      let p := run_limit o st limit
      (p.1, .resUsize p.2)
  | .chDir newDir, st => (st, .resUnit (ch_dir o newDir))
  | .addUDF name minArgs maxArgs functionId, st =>
      let p := add_udf st name minArgs maxArgs functionId
      (p.1, .resUnit p.2)
  | .addRouter name _ supports, st =>
      let p := add_router o st name supports
      (p.1, .resUnit p.2)
  | .removeUDF name, st =>
      let p := remove_udf st name
      (p.1, .resBool p.2)
  | .assertFact templateName userResult, st =>
      let p := assert_fact o st templateName userResult
      (p.1, .resUnit p.2)
  | .makeInstance templateName userResult instanceName, st =>
      let p := make_instance o st templateName userResult instanceName
      (p.1, .resUnit p.2)
  | .setDynamicConstraintChecking value, st =>
      ({ st with dynamicConstraintChecking := value }, .resPlain)
  | .setConflictResolutionStrategy value, st =>
      ({ st with strategy := value }, .resPlain)
  | .getCurrentParsingLocation, st => (st, .resLoc o.parsingFile o.parsingLine)
  | .binarySaveFacts path, st =>
      (st, .resUsize (binary_save_facts (o.binarySaveFactsRes path)))
  | .binaryLoadFacts path, st =>
      (st, .resUsize (binary_load_facts (o.binaryLoadFactsRes path)))
  | .binarySaveInstances path, st =>
      (st, .resUsize (binary_save_instances (o.binarySaveInstancesRes path)))
  | .binaryLoadInstances path, st =>
      (st, .resUsize (binary_load_instances (o.binaryLoadInstancesRes path)))
  | .retrieveGlobalsValues, st => (st, .resGlobals (retrieve_globals_values st))
  | .restoreGlobals globals, st =>
      let p := restore_globals globals st.globals
      ({ st with globals := p.1 }, .resUnit p.2)
  | .close, st => (st, .resPlain)

/-- Actor receive loop, from `clips_environment_task` (lib.rs lines 410-512):
commands are dequeued one at a time from the (FIFO) channel in list order; a
`Close` command (or a disconnected channel, the end of the list) breaks the
loop, leaving later commands unprocessed; every other command is executed to
completion and its single response recorded before the next command is
dequeued. -/
def clips_environment_task (o : EngineOracle) : List Command → EnvState →
    EnvState × List Response
  | [], st => (st, [])
  | .close :: _, st => (st, [])
  | c :: cs, st =>
      let p := execCommand o c st
      let rest := clips_environment_task o cs p.1
      (rest.1, p.2 :: rest.2)

/-- Sequential execution of a list of commands, threading the state: the
response of each command is computed from the state left by all earlier
commands (used to state FIFO processing). -/
def execList (o : EngineOracle) : List Command → EnvState → List Response
  | [], _ => []
  | c :: cs, st =>
      let p := execCommand o c st
      p.2 :: execList o cs p.1

/-- Whether a command is the explicit close request. -/
def isClose : Command → Bool
  | .close => true
  | _ => false

theorem task_responses (o : EngineOracle) (cs : List Command) (st : EnvState) :
    (clips_environment_task o cs st).2 =
      execList o (cs.takeWhile (fun c => !(isClose c))) st := by
  induction cs generalizing st with
  | nil => rfl
  | cons c cs ih =>
      cases c <;>
        simp [clips_environment_task, execList, isClose, List.takeWhile_cons, ih]

theorem execList_length (o : EngineOracle) (cs : List Command) (st : EnvState) :
    (execList o cs st).length = cs.length := by
  induction cs generalizing st with
  | nil => rfl
  | cons c cs ih => simp [execList, ih]

/-- C3 counterexample: for the submitted sequence [Close, Run] the actor loop
sends zero responses, not one per command — a command queued behind a Close is
never executed and never answered by the loop, so the claim as stated (exactly
one response per submitted command, for every sequence) is false. -/
theorem c3_counterexample_close_then_run :
    ¬ ((clips_environment_task defaultOracle [Command.close, Command.run] initialEnv).2.length
        = 2) := by
  intro h
  rw [show (clips_environment_task defaultOracle [Command.close, Command.run]
      initialEnv).2.length = 0 from rfl] at h
  exact Nat.noConfusion h

/-- C3 (amended): the actor loop executes exactly the commands preceding the
first Close (or channel disconnection), one at a time in submission order,
each to completion — the response of each executed command is computed from
the state produced by all earlier commands — and emits exactly one response
per executed command, in the same order; Close and everything queued after it
produce no response from the loop. -/
theorem c3_fifo_one_response_per_executed (o : EngineOracle) (cs : List Command)
    (st : EnvState) :
    (clips_environment_task o cs st).2 =
      execList o (cs.takeWhile (fun c => !(isClose c))) st ∧
    (clips_environment_task o cs st).2.length =
      (cs.takeWhile (fun c => !(isClose c))).length :=
  ⟨task_responses o cs st, by rw [task_responses o cs st, execList_length]⟩

/-- Responses the loop actually delivered for a submitted command list. -/
def deliveredResponses (o : EngineOracle) (cs : List Command) (st : EnvState) :
    List Response :=
  (clips_environment_task o cs st).2

/-- Outcome observed by the caller that submitted the i-th command through a
handle method (lib.rs lines 98-322): every such method sends the command and
then blocks on its one-shot receiver, mapping a receive failure — the worker
having exited before sending — to `ThreadExited`. If the loop sent an i-th
response the caller gets it; otherwise the one-shot sender was dropped when
the loop terminated and the caller observes `ThreadExited`. -/
def callerOutcome (o : EngineOracle) (cs : List Command) (st : EnvState) (i : Nat) :
    Except CLIPSError Response :=
  match (deliveredResponses o cs st)[i]? with
  | some r => .ok r
  | none => .error .ThreadExited

/-- C4: every caller of a submitted command either receives the response the
actor computed for exactly that command (the i-th executed response, computed
in submission order), or observes the worker-exited error; the outcome is a
total function (no call blocks forever), and an `ok` outcome is always the
genuinely computed response (never a silently dropped command reported as
successful). -/
theorem c4_response_or_thread_exited (o : EngineOracle) (cs : List Command)
    (st : EnvState) (i : Nat) (_h : i < cs.length) :
    callerOutcome o cs st i = .error CLIPSError.ThreadExited ∨
    ∃ r, callerOutcome o cs st i = .ok r ∧
      (execList o (cs.takeWhile (fun c => !(isClose c))) st)[i]? = some r := by
  cases hr : (deliveredResponses o cs st)[i]? with
  | none =>
      left
      simp [callerOutcome, hr]
  | some r =>
      right
      refine ⟨r, by simp [callerOutcome, hr], ?_⟩
      rw [← task_responses o cs st]
      exact hr

/-- Witness for C4: a single Run command submitted to a fresh environment; its
caller receives the computed run response. -/
theorem c4_response_or_thread_exited_witness :
    0 < [Command.run].length ∧
    (callerOutcome defaultOracle [Command.run] initialEnv 0 =
        .error CLIPSError.ThreadExited ∨
      ∃ r, callerOutcome defaultOracle [Command.run] initialEnv 0 = .ok r ∧
        (execList defaultOracle
          ([Command.run].takeWhile (fun c => !(isClose c))) initialEnv)[0]? = some r) :=
  ⟨by decide,
    c4_response_or_thread_exited defaultOracle [Command.run] initialEnv 0 (by decide)⟩

/-- C2 failing-input evaluation: registering "f" (closure id 1) succeeds;
registering "f" again (closure id 2) fails with `NameInUse`, yet the second
closure has replaced the first in the UDF table — `add_udf` inserts before the
native registration is attempted and does not roll back — so the callback
bridge (`call_udf`) now invokes closure 2, not the originally registered
closure 1. -/
theorem c2_second_add_udf_mutates_state :
    (add_udf initialEnv "f" 0 0 1).2 = .ok () ∧
    call_udf (add_udf initialEnv "f" 0 0 1).1 "f" = some 1 ∧
    (add_udf (add_udf initialEnv "f" 0 0 1).1 "f" 0 0 2).2 =
      .error CLIPSError.NameInUse ∧
    call_udf (add_udf (add_udf initialEnv "f" 0 0 1).1 "f" 0 0 2).1 "f" = some 2 ∧
    (add_udf (add_udf initialEnv "f" 0 0 1).1 "f" 0 0 2).1.udfMap ≠
      (add_udf initialEnv "f" 0 0 1).1.udfMap := by
  refine ⟨rfl, rfl, rfl, rfl, ?_⟩
  intro h
  rw [show (add_udf (add_udf initialEnv "f" 0 0 1).1 "f" 0 0 2).1.udfMap =
      [("f", 2)] from rfl,
    show (add_udf initialEnv "f" 0 0 1).1.udfMap = [("f", 1)] from rfl] at h
  simp at h

/-- Variant tags of `CLIPSEnvironmentCommand` (lib.rs lines 325-408). -/
inductive CommandKind where
  | loadFromStr
  | batchStar
  | run
  | runLimit
  | chDir
  | addUDF
  | addRouter
  | removeUDF
  | assertFact
  | makeInstance
  | setDynamicConstraintChecking
  | setConflictResolutionStrategy
  | getCurrentParsingLocation
  | binarySaveFacts
  | binaryLoadFacts
  | binarySaveInstances
  | binaryLoadInstances
  | retrieveGlobalsValues
  | restoreGlobals
  | close
deriving DecidableEq, Repr, Fintype

/-- Tag of a concrete command. -/
def Command.kind : Command → CommandKind
  | .loadFromStr _ => .loadFromStr
  | .batchStar _ => .batchStar
  | .run => .run
  | .runLimit _ => .runLimit
  | .chDir _ => .chDir
  | .addUDF _ _ _ _ => .addUDF
  | .addRouter _ _ _ => .addRouter
  | .removeUDF _ => .removeUDF
  | .assertFact _ _ => .assertFact
  | .makeInstance _ _ _ => .makeInstance
  | .setDynamicConstraintChecking _ => .setDynamicConstraintChecking
  | .setConflictResolutionStrategy _ => .setConflictResolutionStrategy
  | .getCurrentParsingLocation => .getCurrentParsingLocation
  | .binarySaveFacts _ => .binarySaveFacts
  | .binaryLoadFacts _ => .binaryLoadFacts
  | .binarySaveInstances _ => .binarySaveInstances
  | .binaryLoadInstances _ => .binaryLoadInstances
  | .retrieveGlobalsValues => .retrieveGlobalsValues
  | .restoreGlobals _ => .restoreGlobals
  | .close => .close

/-- Public methods of the `Environment` handle that submit a command to the
actor, one case per method of `impl Environment` (lib.rs lines 76-323). -/
inductive HandleMethod where
  | close
  | load_from_str
  | batch_star
  | chdir
  | run
  | add_udf
  | add_router
  | remove_udf
  | assert_fact
  | make_instance
  | set_dynamic_constraint_checking
  | set_conflict_resolution_strategy
  | get_current_parsing_location
  | binary_save_facts
  | binary_load_facts
  | binary_save_instances
  | binary_load_instances
  | retrieve_globals_values
  | restore_globals
deriving DecidableEq, Repr, Fintype

/-- Which command variant each public handle method constructs and sends,
read off the `self.input_tx.send(CLIPSEnvironmentCommand::…)` call in each
method body (lib.rs lines 88-322). -/
def handle_method_command : HandleMethod → CommandKind
  | .close => .close
  | .load_from_str => .loadFromStr
  | .batch_star => .batchStar
  | .chdir => .chDir
  | .run => .run
  | .add_udf => .addUDF
  | .add_router => .addRouter
  | .remove_udf => .removeUDF
  | .assert_fact => .assertFact
  | .make_instance => .makeInstance
  | .set_dynamic_constraint_checking => .setDynamicConstraintChecking
  | .set_conflict_resolution_strategy => .setConflictResolutionStrategy
  | .get_current_parsing_location => .getCurrentParsingLocation
  | .binary_save_facts => .binarySaveFacts
  | .binary_load_facts => .binaryLoadFacts
  | .binary_save_instances => .binarySaveInstances
  | .binary_load_instances => .binaryLoadInstances
  | .retrieve_globals_values => .retrieveGlobalsValues
  | .restore_globals => .restoreGlobals

/-- C9 counterexample: no public `Environment` handle method constructs the
`RunLimit` command — the handle only exposes the unbounded `run` — so the
claimed bounded-run handle method does not exist. -/
theorem c9_no_handle_method_sends_run_limit :
    ¬ ∃ m : HandleMethod, handle_method_command m = CommandKind.runLimit := by
  decide

/-- C9 (amended): the bounded run exists only below the handle: the actor
executes a `RunLimit` command by calling `CLIPSEnvironment::run_limit`, which
signals run-started with the limit, fires at most `limit` rules through the
engine and returns the fired count — but no public `Environment` handle
method sends `RunLimit`, so the command is unreachable through the handle. -/
theorem c9_run_limit_actor_only (o : EngineOracle) (st : EnvState) (limit : Nat) :
    execCommand o (Command.runLimit limit) st =
      ((run_limit o st limit).1, Response.resUsize (run_limit o st limit).2) ∧
    (run_limit o st limit).2 = .ok (o.runWith (some limit)) ∧
    ∀ m : HandleMethod, handle_method_command m ≠ CommandKind.runLimit := by
  refine ⟨rfl, rfl, ?_⟩
  decide

/-- Error carried by a response, if any. -/
def responseError : Response → Option CLIPSError
  | .resUnit (.error e) => some e
  | .resUsize (.error e) => some e
  | .resGlobals (.error e) => some e
  | _ => none

/-- Whether the user-supplied `IntoFactOrInstance` impl carried by a command
avoids fabricating the two load-specific persistence errors itself (the
library merely propagates whatever error a user impl returns). -/
def userErrorsExcluded : Command → Prop
  | .assertFact _ userResult =>
      userResult ≠ .error .UnableToLoadFacts ∧ userResult ≠ .error .UnableToLoadInstances
  | .makeInstance _ userResult _ =>
      userResult ≠ .error .UnableToLoadFacts ∧ userResult ≠ .error .UnableToLoadInstances
  | _ => True

theorem restore_entries_error (entries : List (String × String × CLIPSValue))
    (store : GlobalsStore) :
    (restore_entries entries store).2 = .ok () ∨
    (restore_entries entries store).2 = .error CLIPSError.DefglobalNotFound := by
  induction entries generalizing store with
  | nil => left; rfl
  | cons e rest ih =>
      obtain ⟨m, n, v⟩ := e
      cases hfd : findDefglobal store m n with
      | none => right; simp [restore_entries, hfd]
      | some w =>
          rw [show (restore_entries ((m, n, v) :: rest) store).2 =
              (restore_entries rest
                (defglobalSetValue store m n (clipsfrom_clipsvalue v))).2 from by
              simp [restore_entries, hfd]]
          exact ih _

/-- C10: a failed binary load (engine result -1) of facts maps to the
`UnableToSaveFacts` error kind and of instances to `UnableToSaveInstances`;
and no command the actor can execute ever responds with the load-specific
kinds `UnableToLoadFacts` or `UnableToLoadInstances` (provided the
user-supplied builder impl carried by an assert/make command does not return
those errors itself, since user errors are propagated verbatim). -/
theorem add_udf_result_cases (st : EnvState) (name : String) (minArgs maxArgs : Nat)
    (functionId : Nat) :
    (add_udf st name minArgs maxArgs functionId).2 = .ok () ∨
    (add_udf st name minArgs maxArgs functionId).2 = .error CLIPSError.MinArgumentsExceedsMax ∨
    (add_udf st name minArgs maxArgs functionId).2 = .error CLIPSError.NameInUse := by
  unfold add_udf
  rcases hres : engineAddUDF st.engineUdfNames name minArgs maxArgs with ⟨names2, res⟩
  cases res <;> simp [hres]

theorem assert_fact_result_cases (o : EngineOracle) (st : EnvState)
    (templateName : String) (userResult : Except CLIPSError Unit) :
    (assert_fact o st templateName userResult).2 = userResult ∨
    (assert_fact o st templateName userResult).2 = .error CLIPSError.UnableToAssertFact ∨
    (assert_fact o st templateName userResult).2 = .error CLIPSError.RuleNetwork := by
  unfold assert_fact
  rcases userResult with e | u
  · simp
  · by_cases hnull : o.fbAssertNull templateName
    · by_cases herr : o.fbErrorCouldNotAssert <;> simp [hnull, herr]
    · simp [hnull]

theorem make_instance_result_cases (o : EngineOracle) (st : EnvState)
    (templateName : String) (userResult : Except CLIPSError Unit)
    (instanceName : Option String) :
    (make_instance o st templateName userResult instanceName).2 = userResult ∨
    (make_instance o st templateName userResult instanceName).2 =
      .error CLIPSError.UnableToMakeInstance ∨
    (make_instance o st templateName userResult instanceName).2 =
      .error CLIPSError.RuleNetwork := by
  unfold make_instance
  rcases userResult with e | u
  · simp
  · by_cases hnull : o.ibMakeNull templateName
    · by_cases herr : o.ibErrorCouldNotCreate <;> simp [hnull, herr]
    · simp [hnull]

/-- C10: a failed binary load (engine result -1) of facts maps to the
`UnableToSaveFacts` error kind and of instances to `UnableToSaveInstances`;
and no command the actor can execute ever responds with the load-specific
kinds `UnableToLoadFacts` or `UnableToLoadInstances` (provided the
user-supplied builder impl carried by an assert/make command does not return
those errors itself, since user errors are propagated verbatim). -/
theorem c10_load_errors_use_save_kinds (o : EngineOracle) (c : Command)
    (st : EnvState) (h : userErrorsExcluded c) :
    binary_load_facts (-1) = .error CLIPSError.UnableToSaveFacts ∧
    binary_load_instances (-1) = .error CLIPSError.UnableToSaveInstances ∧
    responseError (execCommand o c st).2 ≠ some CLIPSError.UnableToLoadFacts ∧
    responseError (execCommand o c st).2 ≠ some CLIPSError.UnableToLoadInstances := by
  refine ⟨rfl, rfl, ?_, ?_⟩ <;>
  · cases c with
    | loadFromStr data =>
        by_cases hok : o.loadFromStringOk data <;>
          simp [execCommand, load_from_str, hok, responseError]
    | batchStar filePath =>
        by_cases hok : o.batchStarOk filePath <;>
          simp [execCommand, batch_star, hok, responseError]
    | run => simp [execCommand, run, responseError]
    | runLimit limit => simp [execCommand, run_limit, responseError]
    | chDir newDir =>
        by_cases hok : o.chdirOk newDir <;>
          simp [execCommand, ch_dir, hok, responseError]
    | addUDF name minArgs maxArgs functionId =>
        rcases add_udf_result_cases st name minArgs maxArgs functionId with hc | hc | hc <;>
          simp [execCommand, hc, responseError]
    | addRouter name priority supports =>
        by_cases hok : o.addRouterOk name <;>
          simp [execCommand, add_router, hok, responseError]
    | removeUDF name => simp [execCommand, responseError]
    | assertFact templateName userResult =>
        simp only [userErrorsExcluded] at h
        rcases assert_fact_result_cases o st templateName userResult with hc | hc | hc
        · rcases userResult with e | u
          · simp [execCommand, hc, responseError]
            intro he
            rw [he] at h
            simp at h
          · simp [execCommand, hc, responseError]
        · simp [execCommand, hc, responseError]
        · simp [execCommand, hc, responseError]
    | makeInstance templateName userResult instanceName =>
        simp only [userErrorsExcluded] at h
        rcases make_instance_result_cases o st templateName userResult instanceName
            with hc | hc | hc
        · rcases userResult with e | u
          · simp [execCommand, hc, responseError]
            intro he
            rw [he] at h
            simp at h
          · simp [execCommand, hc, responseError]
        · simp [execCommand, hc, responseError]
        · simp [execCommand, hc, responseError]
    | setDynamicConstraintChecking value => simp [execCommand, responseError]
    | setConflictResolutionStrategy value => simp [execCommand, responseError]
    | getCurrentParsingLocation => simp [execCommand, responseError]
    | binarySaveFacts path =>
        by_cases hres : o.binarySaveFactsRes path = -1 <;>
          simp [execCommand, binary_save_facts, hres, responseError]
    | binaryLoadFacts path =>
        by_cases hres : o.binaryLoadFactsRes path = -1 <;>
          simp [execCommand, binary_load_facts, hres, responseError]
    | binarySaveInstances path =>
        by_cases hres : o.binarySaveInstancesRes path = -1 <;>
          simp [execCommand, binary_save_instances, hres, responseError]
    | binaryLoadInstances path =>
        by_cases hres : o.binaryLoadInstancesRes path = -1 <;>
          simp [execCommand, binary_load_instances, hres, responseError]
    | retrieveGlobalsValues =>
        simp [execCommand, retrieve_globals_values, responseError]
    | restoreGlobals globals =>
        rcases restore_entries_error (flattenGlobals globals) st.globals with hok | herr
        · simp [execCommand, restore_globals, hok, responseError]
        · simp [execCommand, restore_globals, herr, responseError]
    | close => simp [execCommand, responseError]

/-- Witness for C10: a failed binary facts load through the actor responds
with the save-facts error kind, and the evaluation witnesses the mapping
`binary_load_facts (-1) = UnableToSaveFacts`. -/
theorem c10_load_errors_use_save_kinds_witness :
    userErrorsExcluded (Command.binaryLoadFacts "facts.bin") ∧
    (binary_load_facts (-1) = .error CLIPSError.UnableToSaveFacts ∧
      binary_load_instances (-1) = .error CLIPSError.UnableToSaveInstances ∧
      responseError
          (execCommand defaultOracle (Command.binaryLoadFacts "facts.bin") initialEnv).2 ≠
        some CLIPSError.UnableToLoadFacts ∧
      responseError
          (execCommand defaultOracle (Command.binaryLoadFacts "facts.bin") initialEnv).2 ≠
        some CLIPSError.UnableToLoadInstances) :=
  ⟨trivial,
    c10_load_errors_use_save_kinds defaultOracle (Command.binaryLoadFacts "facts.bin")
      initialEnv trivial⟩

end ClipsRs
